import Mathlib

/-!
Shallow embedding of the core request pipeline of the Snooland Reddit client
(`src/mod.ts`): the listing paginator, the header-driven rate limiter of the
anonymous client, the OAuth token lifecycle of the authenticated client, and
the `Reddit.create` factory.  Machine-level JavaScript behaviours that the
source relies on (truthiness of strings, `Number(null) = 0`, `Number` of a
non-numeric string being NaN, `setTimeout` clamping negative delays to zero,
and `EventEmitter` throwing an unlistened error event) are modelled
explicitly so that every theorem is about what the TypeScript actually does.
-/

set_option maxRecDepth 8000

namespace Snooland

/-- JS truthiness of an optional string field: an absent (`undefined`) value
and the empty string are falsy, every other string is truthy. -/
def jsTruthy : Option String → Bool
  | none => false
  | some s => s != ""

/-- A JS number that is either a definite integer or NaN (`none`). -/
abbrev JSNum := Option Int

/-- An HTTP response header slot as the code observes it:
absent (`headers.get` returns `null`), present but not numeric,
or present with an integer value. -/
inductive HeaderVal
  | absent
  | malformed (s : String)
  | numeric (n : Int)
deriving DecidableEq, Repr

/-- `Number(res.headers.get(h))` in `RedditAnon.fetch` (src/mod.ts lines
130-133): a missing header yields `null` and `Number(null) = 0`; a
non-numeric string yields NaN; a numeric string yields its value. -/
def headerNumber : HeaderVal → JSNum
  | .absent => some 0
  | .malformed _ => none
  | .numeric n => some n

/-! ## Pagination (`RedditAnon.paginate`, src/mod.ts lines 138-157) -/

/-- One element of `json.data.children`; the code projects its `data` field. -/
structure ChildThing (T : Type) where
  data : T
deriving DecidableEq, Repr

/-- The listing envelope `json.data` consumed by the paginator: the ordered
children of the page and the forward cursor (`none` models `null` or an
absent field). -/
structure Listing (T : Type) where
  children : List (ChildThing T)
  after : Option String
deriving DecidableEq, Repr

/-- Result of a pagination run: the flattened items, the cursor value sent
with each request (`none` means no `after` parameter yet, i.e. the first
request), and the item batches handed to the per-page callback, in order. -/
structure PaginateResult (T : Type) where
  items : List T
  requests : List (Option String)
  pages : List (List T)
deriving DecidableEq, Repr

/-- The do/while body of `RedditAnon.paginate` (src/mod.ts lines 148-155):
fetch the page for the current cursor, append its items in server order,
deliver the batch to the callback, stop if the page's `after` is falsy
(`null`, `undefined` or the empty string), otherwise set the cursor to
`after` and continue while the countdown `(limit -= 100) > 0` allows it.
The `fuel` argument only bounds the structural recursion; `paginate` below
supplies `limit.toNat`, which the countdown can never outrun, so the
fuel-exhausted branch is unreachable from `paginate`. -/
def paginateLoop {T : Type} (server : Option String → Listing T) :
    Nat → Option String → Int → PaginateResult T → PaginateResult T
  | fuel, cursor, limit, acc =>
    let json := server cursor
    let newItems := json.children.map (fun c => c.data)
    let acc' : PaginateResult T :=
      { items := acc.items ++ newItems
        requests := acc.requests ++ [cursor]
        pages := acc.pages ++ [newItems] }
    if jsTruthy json.after then
      if 0 < limit - 100 then
        match fuel with
        | 0 => acc'
        | fuel' + 1 => paginateLoop server fuel' json.after (limit - 100) acc'
      else acc'
    else acc'

/-- `(params?.limit || 100)` of src/mod.ts line 146: an absent or zero
(falsy) `limit` parameter defaults to 100. -/
def effectiveLimit : Option Int → Int
  | none => 100
  | some n => if n = 0 then 100 else n

/-- `RedditAnon.paginate` for a fixed server: the loop starts with no cursor
and an empty accumulator. -/
def paginate {T : Type} (server : Option String → Listing T)
    (limitParam : Option Int) : PaginateResult T :=
  paginateLoop server (effectiveLimit limitParam).toNat none
    (effectiveLimit limitParam) ⟨[], [], []⟩

/-- A run of consecutive naturals wrapped as listing children. -/
def mkChildren (start len : Nat) : List (ChildThing Nat) :=
  (List.range len).map (fun i => ⟨start + i⟩)

/-- Mock server of spec section 8, properties 3 and 4: three pages of sizes
100, 100 and 40, chained by `after` cursors and terminated by `null`. -/
def mock3 : Option String → Listing Nat
  | none => ⟨mkChildren 0 100, some "p1"⟩
  | some "p1" => ⟨mkChildren 100 100, some "p2"⟩
  | some "p2" => ⟨mkChildren 200 40, none⟩
  | _ => ⟨[], none⟩

/-- Mock server with pages of 10 items each, chained indefinitely: page
sizes smaller than 100 separate the item-count reading of the limit from
the countdown the code actually performs. -/
def mockSmall : Option String → Listing Nat
  | none => ⟨mkChildren 0 10, some "a"⟩
  | some "a" => ⟨mkChildren 10 10, some "b"⟩
  | some "b" => ⟨mkChildren 20 10, some "c"⟩
  | _ => ⟨mkChildren 30 10, some "z"⟩

/-- The items of a page, as the paginator extracts them. -/
def pageItems {T : Type} (server : Option String → Listing T)
    (cursor : Option String) : List T :=
  (server cursor).children.map (fun c => c.data)

/-- Loop invariant of the paginator: the accumulated items are exactly the
concatenation of the delivered batches, and each delivered batch is the
full item list of the page fetched for the corresponding request cursor. -/
theorem paginateLoop_pages_full {T : Type} (server : Option String → Listing T) :
    ∀ (fuel : Nat) (cursor : Option String) (limit : Int) (acc : PaginateResult T),
      acc.items = acc.pages.flatten →
      acc.pages = acc.requests.map (pageItems server) →
      (paginateLoop server fuel cursor limit acc).items
          = (paginateLoop server fuel cursor limit acc).pages.flatten ∧
        (paginateLoop server fuel cursor limit acc).pages
          = (paginateLoop server fuel cursor limit acc).requests.map (pageItems server) := by
  intro fuel
  induction fuel with
  | zero =>
    intro cursor limit acc hitems hpages
    simp only [paginateLoop]
    split <;> [skip; (refine ⟨?_, ?_⟩ <;> simp [hitems, hpages, pageItems])]
    split <;> refine ⟨?_, ?_⟩ <;> simp [hitems, hpages, pageItems]
  | succ fuel ih =>
    intro cursor limit acc hitems hpages
    simp only [paginateLoop]
    split
    · split
      · exact ih _ _ _ (by simp [hitems]) (by simp [hpages, pageItems])
      · refine ⟨?_, ?_⟩ <;> simp [hitems, hpages, pageItems]
    · refine ⟨?_, ?_⟩ <;> simp [hitems, hpages, pageItems]

/-- C3: a page whose items cross the limit is still delivered and
accumulated in full — the accumulated items are exactly the concatenation
of the delivered batches and every delivered batch is the complete item
list of its fetched page, so items are never truncated mid-page and the
limit only controls whether another page is requested; in particular, with
100-item pages and limit 150 exactly 2 requests are issued and every item
of the second page is included even though the total (200) exceeds 150. -/
theorem paginate_never_truncates_mid_page :
    (∀ (T : Type) (server : Option String → Listing T) (limitParam : Option Int),
        (paginate server limitParam).items = (paginate server limitParam).pages.flatten ∧
        (paginate server limitParam).pages
          = (paginate server limitParam).requests.map (pageItems server)) ∧
    (paginate mock3 (some 150)).requests = [none, some "p1"] ∧
    (paginate mock3 (some 150)).items = List.range 200 := by
  refine ⟨fun T server lp => paginateLoop_pages_full server _ _ _ _ rfl rfl, rfl, rfl⟩

/-- C2 (amended): the paginator stops requesting further pages exactly when
the fetched page's `after` is falsy or the countdown `(limit -= 100) > 0`
fails — the limit is decremented by 100 per fetched page, not compared with
the accumulated item count — and otherwise the next request's cursor is the
page's `after`; against 3 pages of sizes 100, 100, 40 chained by `after`
then null, a run with limit 1000 returns 240 items in original order after
exactly 3 requests whose cursors chain through the returned `after`s. -/
theorem paginate_countdown_and_null_stop :
    (paginate mock3 (some 1000)).items = List.range 240 ∧
    (paginate mock3 (some 1000)).requests = [none, some "p1", some "p2"] ∧
    (∀ (T : Type) (server : Option String → Listing T) (fuel : Nat)
        (cursor : Option String) (limit : Int) (acc : PaginateResult T),
        jsTruthy (server cursor).after = false →
        paginateLoop server fuel cursor limit acc
          = { items := acc.items ++ pageItems server cursor
              requests := acc.requests ++ [cursor]
              pages := acc.pages ++ [pageItems server cursor] }) ∧
    (∀ (T : Type) (server : Option String → Listing T) (fuel : Nat)
        (cursor : Option String) (limit : Int) (acc : PaginateResult T),
        jsTruthy (server cursor).after = true → 0 < limit - 100 →
        paginateLoop server (fuel + 1) cursor limit acc
          = paginateLoop server fuel (server cursor).after (limit - 100)
              { items := acc.items ++ pageItems server cursor
                requests := acc.requests ++ [cursor]
                pages := acc.pages ++ [pageItems server cursor] }) := by
  refine ⟨rfl, rfl, ?_, ?_⟩
  · intro T server fuel cursor limit acc h
    conv_lhs => rw [paginateLoop.eq_def]
    simp [h, pageItems]
  · intro T server fuel cursor limit acc h hlim
    conv_lhs => rw [paginateLoop.eq_def]
    simp only [h, if_true, hlim, if_pos, pageItems]

/-- C2 (witness): the falsy-after stopping rule applied to the third mock
page, whose `after` is null. -/
theorem paginate_countdown_and_null_stop_witness :
    paginateLoop mock3 5 (some "p2") 800 ⟨[], [], []⟩
      = { items := [] ++ pageItems mock3 (some "p2")
          requests := [] ++ [some "p2"]
          pages := [] ++ [pageItems mock3 (some "p2")] } :=
  paginate_countdown_and_null_stop.2.2.1 Nat mock3 5 (some "p2") 800 ⟨[], [], []⟩ rfl

/-- C2 (counterexample): against pages of 10 items chained by `after`, a run
with limit 200 stops after 2 requests with only 20 accumulated items, even
though the second page's `after` is non-null and 20 has not reached 200 —
the accumulated item count plays no role in the stopping decision, so the
cursor `"b"` is never requested. -/
theorem paginate_ignores_item_count_cex :
    (paginate mockSmall (some 200)).requests = [none, some "a"] ∧
    (paginate mockSmall (some 200)).items.length = 20 ∧
    (mockSmall (some "a")).after = some "b" ∧
    (20 : Nat) < 200 ∧
    some "b" ∉ (paginate mockSmall (some 200)).requests := by
  exact ⟨rfl, rfl, rfl, by omega, by decide⟩

/-! ## Rate limiting (`RedditAnon.fetch`, src/mod.ts lines 95-135) -/

/-- The per-session rate-limit state of `RedditAnon` (src/mod.ts lines
95-98): both fields are JS numbers, so after a header update either may be
NaN (`none`). -/
structure RateLimit where
  reqRemaining : JSNum
  resetMs : JSNum
deriving DecidableEq, Repr

/-- The rate-limit state a fresh session starts with (src/mod.ts lines
95-98): 60 requests, reset one minute from construction. -/
def initialRateLimit (constructedAt : Int) : RateLimit :=
  ⟨some 60, some (constructedAt + 60000)⟩

/-- The time at which the network call of `RedditAnon.fetch` is performed
(src/mod.ts lines 104-113): when `reqRemaining === 0` the code awaits
`setTimeout(resolve, resetMs - now)`, and `setTimeout` clamps a negative or
NaN delay to zero, so the call happens at `max now resetMs` (or at `now`
when `resetMs` is NaN); a NaN `reqRemaining` fails the `=== 0` test and the
call happens immediately. -/
def rateGateSendTime (rl : RateLimit) (now : Int) : Int :=
  if rl.reqRemaining = some 0 then
    match rl.resetMs with
    | some r => max now r
    | none => now
  else now

/-- The header update performed after every completed exchange (src/mod.ts
lines 129-133): both fields are overwritten from the response's
x-ratelimit headers via `Number`, unconditionally. -/
def updateRateLimit (remainingHeader resetHeader : HeaderVal) : RateLimit :=
  { reqRemaining := headerNumber remainingHeader
    resetMs := headerNumber resetHeader }

/-- Observable outcome of the rate-limit pipeline of one `RedditAnon.fetch`:
when the network call happened and the state left for the next call. -/
structure AnonFetchResult where
  sendTime : Int
  rateLimit : RateLimit
deriving DecidableEq, Repr

/-- The rate-limit pipeline of `RedditAnon.fetch`: gate on the current
state, perform the exchange, then overwrite the state from the response's
headers. -/
def anonFetch (rl : RateLimit) (now : Int)
    (remainingHeader resetHeader : HeaderVal) : AnonFetchResult :=
  { sendTime := rateGateSendTime rl now
    rateLimit := updateRateLimit remainingHeader resetHeader }

/-- C4: a fetch issued while the rate-limit state has remaining equal to 0
performs its network call no earlier than the reset time (and no earlier
than the issue time); with resetMs equal to now + 2000 the network call
happens no earlier than now + 2000. -/
theorem rate_limit_zero_suspends_until_reset (rl : RateLimit) (now : Int)
    (hrem : rl.reqRemaining = some 0) :
    ∀ r : Int, rl.resetMs = some r →
      r ≤ (anonFetch rl now .absent .absent).sendTime ∧
      now ≤ (anonFetch rl now .absent .absent).sendTime ∧
      (anonFetch rl now .absent .absent).sendTime = max now r := by
  intro r hres
  simp [anonFetch, rateGateSendTime, hrem, hres, le_max_left, le_max_right]

/-- C4 (witness): remaining 0 and reset 2 seconds after a fetch issued at
time 0 sends no earlier than time 2000. -/
theorem rate_limit_zero_suspends_until_reset_witness :
    (2000 : Int) ≤ (anonFetch ⟨some 0, some 2000⟩ 0 .absent .absent).sendTime ∧
    (0 : Int) ≤ (anonFetch ⟨some 0, some 2000⟩ 0 .absent .absent).sendTime ∧
    (anonFetch ⟨some 0, some 2000⟩ 0 .absent .absent).sendTime = max 0 2000 :=
  rate_limit_zero_suspends_until_reset ⟨some 0, some 2000⟩ 0 rfl 2000 rfl

/-- C5: after a completed exchange whose rate-limit headers are missing or
unparseable (in any combination), the next fetch on the session performs
its network call immediately: a missing header parses as `Number(null) = 0`
so the gate compares against a reset time of 0, which is already past, and
an unparseable header parses as NaN, which fails the `=== 0` test — either
way the next send is not delayed. -/
theorem missing_or_malformed_headers_do_not_block (rl : RateLimit)
    (now t : Int) (remainingHeader resetHeader : HeaderVal)
    (hrem : remainingHeader = HeaderVal.absent ∨
      ∃ s, remainingHeader = HeaderVal.malformed s)
    (hres : resetHeader = HeaderVal.absent ∨
      ∃ s, resetHeader = HeaderVal.malformed s)
    (ht : 0 ≤ t) :
    rateGateSendTime (anonFetch rl now remainingHeader resetHeader).rateLimit t = t := by
  rcases hrem with h1 | ⟨s1, h1⟩ <;> rcases hres with h2 | ⟨s2, h2⟩ <;>
    subst h1 <;> subst h2 <;>
    simp [anonFetch, rateGateSendTime, updateRateLimit, headerNumber, max_eq_left, ht]

/-- C5 (witness): with both headers of the previous response absent, a fetch
issued at time 7 sends at time 7. -/
theorem missing_or_malformed_headers_do_not_block_witness :
    rateGateSendTime (anonFetch ⟨some 60, some 60000⟩ 3 .absent .absent).rateLimit 7 = 7 :=
  missing_or_malformed_headers_do_not_block ⟨some 60, some 60000⟩ 3 7 .absent .absent
    (Or.inl rfl) (Or.inl rfl) (by omega)

/-! ## OAuth token lifecycle (`RedditOauth`, src/mod.ts lines 327-439) -/

/-- The stored token of `RedditOauth` (src/mod.ts lines 602-607): every
field is optional because the constructor copies possibly-absent options
into it; `expiry` is the epoch-millisecond value of the `Date`. -/
structure BetterToken where
  access : Option String
  refresh : Option String
  expiry : Option Int
deriving DecidableEq, Repr

/-- The app type chosen by the `RedditOauth` constructor (src/mod.ts lines
347-351): `unset` models the `undefined` branch (a session built from a
bare access token). -/
inductive AppType
  | script
  | web
  | unset
deriving DecidableEq, Repr

/-- The mutable session state of `RedditOauth` relevant to authentication,
plus whether an `error` listener is registered on the session's
`EventEmitter`: Node throws an `error` event that has no listener, so the
flag decides whether `emit("error", e)` surfaces as an exception. -/
structure OauthState where
  id : Option String
  secret : Option String
  username : Option String
  password : Option String
  appType : AppType
  token : BetterToken
  hasErrorListener : Bool
deriving DecidableEq, Repr

/-- A successful grant response body (src/mod.ts lines 590-600). -/
structure OauthTokenResponseBody where
  access_token : String
  expires_in : Int
  refresh_token : Option String
deriving DecidableEq, Repr

/-- The JSON body returned by the token endpoint: either a success body or
a body carrying an `error` field (src/mod.ts lines 381 and 412 test
`"error" in json`). -/
inductive GrantBody
  | ok (resp : OauthTokenResponseBody)
  | err (msg : String)
deriving DecidableEq, Repr

/-- A thrown JS `Error`, carrying its message. -/
inductive JsError
  | error (msg : String)
deriving DecidableEq, Repr

/-- An event emitted on the session's `EventEmitter`. -/
inductive SessionEvent
  | errorEvent (msg : String)
  | tokenRefreshed (t : BetterToken)
deriving DecidableEq, Repr

/-- Outcome of `RedditOauth.getNewToken`: the session state afterwards, the
events delivered to listeners, how many grant POSTs went on the network,
and the success body stored via `setToken`, if any. -/
structure GrantOutcome where
  state : OauthState
  events : List SessionEvent
  grantCalls : Nat
  applied : Option OauthTokenResponseBody
deriving DecidableEq, Repr

/-- `super.emit("error", new Error(msg))` inside `getNewToken` followed by
`return`: with a registered listener the event is delivered and the method
returns normally; without one, Node's `EventEmitter` throws the error. -/
def emitErrorReturn (s : OauthState) (calls : Nat) (msg : String) :
    Except JsError GrantOutcome :=
  if s.hasErrorListener then
    .ok { state := s, events := [.errorEvent msg], grantCalls := calls, applied := none }
  else
    .error (.error msg)

/-- `RedditOauth.getNewToken` (src/mod.ts lines 358-422), with the network
grant exchange abstracted as the `grant` argument (the decoded body of the
POST to the token endpoint, performed exactly when control reaches the
`fetch` call). The web branch requires a truthy stored refresh token, keeps
it in the new token, and emits `tokenRefreshed`; the script branch requires
truthy username and password (throwing otherwise) and stores no refresh
token; an `undefined` app type does nothing. -/
def getNewToken (s : OauthState) (now : Int) (grant : GrantBody) :
    Except JsError GrantOutcome :=
  match s.appType with
  | .web =>
    if !jsTruthy s.token.refresh then
      emitErrorReturn s 0 "Access token expired; excpected a refresh token."
    else
      match grant with
      | .err msg => emitErrorReturn s 1 msg
      | .ok resp =>
        let tok : BetterToken :=
          { access := some resp.access_token
            refresh := s.token.refresh
            expiry := some (now + resp.expires_in * 1000) }
        .ok { state := { s with token := tok }
              events := [.tokenRefreshed tok]
              grantCalls := 1
              applied := some resp }
  | .script =>
    if !jsTruthy s.username || !jsTruthy s.password then
      .error (.error "Username and password are required for script apps")
    else
      match grant with
      | .err msg => emitErrorReturn s 1 msg
      | .ok resp =>
        let tok : BetterToken :=
          { access := some resp.access_token
            refresh := none
            expiry := some (now + resp.expires_in * 1000) }
        .ok { state := { s with token := tok }
              events := []
              grantCalls := 1
              applied := some resp }
  | .unset => .ok { state := s, events := [], grantCalls := 0, applied := none }

/-- `!this.token?.expiry || Date.now() > this.token.expiry.getTime()`
(src/mod.ts line 428): a token with no expiry, or one whose expiry is
strictly in the past, triggers `getNewToken`. -/
def needNewToken (t : BetterToken) (now : Int) : Bool :=
  match t.expiry with
  | none => true
  | some e => decide (e < now)

/-- The request `RedditOauth.fetch` hands to `super.fetch`: the access
token rendered into the `Authorization: bearer` header (`none` renders the
string "bearer undefined") and, for specification purposes, the expiry of
the token attached at send time. -/
structure SentRequest where
  bearerAccess : Option String
  tokenExpiry : Option Int
deriving DecidableEq, Repr

/-- Outcome of one `RedditOauth.fetch` that reached the network: what was
sent, the session state afterwards, the delivered events, the number of
grant POSTs, and the grant body stored during the call, if any. -/
structure FetchOutcome where
  sent : SentRequest
  state : OauthState
  events : List SessionEvent
  grantCalls : Nat
  grantApplied : Option OauthTokenResponseBody
deriving DecidableEq, Repr

/-- `RedditOauth.fetch` (src/mod.ts lines 424-439): refresh the token when
it is absent-of-expiry or expired, then call `super.fetch` with the bearer
header built from whatever token the session now holds — including the
stale one when `getNewToken` emitted its failure to a listener and
returned. -/
def oauthFetch (s : OauthState) (now : Int) (grant : GrantBody) :
    Except JsError FetchOutcome :=
  if needNewToken s.token now then
    match getNewToken s now grant with
    | .error e => .error e
    | .ok g =>
      .ok { sent := { bearerAccess := g.state.token.access
                      tokenExpiry := g.state.token.expiry }
            state := g.state
            events := g.events
            grantCalls := g.grantCalls
            grantApplied := g.applied }
  else
    .ok { sent := { bearerAccess := s.token.access, tokenExpiry := s.token.expiry }
          state := s
          events := []
          grantCalls := 0
          grantApplied := none }

/-- The expiry gate fails exactly when the token has an expiry that is not
strictly in the past. -/
theorem needNewToken_false_iff (t : BetterToken) (now : Int) :
    needNewToken t now = false ↔ ∃ e, t.expiry = some e ∧ now ≤ e := by
  unfold needNewToken
  cases t.expiry <;> simp

/-- A grant body stored during `getNewToken` determines the new token's
access and expiry: the expiry is `now + expires_in * 1000` milliseconds. -/
theorem getNewToken_applied (s : OauthState) (now : Int) (grant : GrantBody)
    (g : GrantOutcome) (resp : OauthTokenResponseBody)
    (h : getNewToken s now grant = Except.ok g) (happ : g.applied = some resp) :
    g.state.token.expiry = some (now + resp.expires_in * 1000) ∧
    g.state.token.access = some resp.access_token := by
  unfold getNewToken emitErrorReturn at h
  cases hA : s.appType <;> simp only [hA] at h <;> rcases grant with r | m <;>
    (try split_ifs at h) <;> simp only [Except.ok.injEq] at h <;>
    (try subst h) <;> simp_all

def boundaryToken : BetterToken := ⟨some "acc", none, some 1000⟩

def boundaryState : OauthState :=
  { id := some "cid", secret := some "csec", username := none, password := none
    appType := .unset, token := boundaryToken, hasErrorListener := false }

/-- C1 (counterexample): at a send instant exactly equal to the token's
expiry, the gate `Date.now() > expiry` does not trigger a refresh and the
request is sent carrying a token whose expiry is not strictly in the
future. -/
theorem fetch_token_expiry_boundary_cex :
    oauthFetch boundaryState 1000 (.err "unused")
      = .ok { sent := { bearerAccess := some "acc", tokenExpiry := some 1000 }
              state := boundaryState, events := [], grantCalls := 0
              grantApplied := none } ∧
    ¬ (1000 : Int) < 1000 := ⟨rfl, by omega⟩

/-- C1 (amended): on every fetch that reaches the network, if no grant was
stored during the call and the expiry gate did not fire, the attached
token's expiry is greater than or equal to the send instant (equality is
possible); and if a successful grant with positive expires_in was stored,
the attached token's expiry is strictly in the future. (When a refresh
attempt fails and the error is emitted to a registered listener, the
request is still sent with the stale token.) -/
theorem fetch_token_expiry_not_past (s : OauthState) (now : Int) (g : GrantBody)
    (r : FetchOutcome) (h : oauthFetch s now g = .ok r) :
    (r.grantApplied = none → needNewToken s.token now = false →
      ∃ e, r.sent.tokenExpiry = some e ∧ now ≤ e) ∧
    (∀ resp, r.grantApplied = some resp → 0 < resp.expires_in →
      ∃ e, r.sent.tokenExpiry = some e ∧ now < e) := by
  unfold oauthFetch at h
  split at h
  case isTrue hneed =>
    cases hg : getNewToken s now g with
    | error e => rw [hg] at h; exact absurd h (by simp)
    | ok go =>
      rw [hg] at h
      simp only [Except.ok.injEq] at h
      subst h
      constructor
      · intro _ hfalse
        rw [hneed] at hfalse
        exact absurd hfalse (by simp)
      · intro resp happ hpos
        obtain ⟨he, _⟩ := getNewToken_applied s now g go resp hg happ
        exact ⟨now + resp.expires_in * 1000, by simp [he], by omega⟩
  case isFalse hneed =>
    simp only [Except.ok.injEq] at h
    subst h
    constructor
    · intro _ _
      obtain ⟨e, he, hle⟩ :=
        (needNewToken_false_iff s.token now).mp (by simpa using hneed)
      exact ⟨e, by simp [he], hle⟩
    · intro resp happ _
      simp at happ

/-- C1 (witness): the amended statement evaluated on a session whose token
expires exactly at the send instant. -/
theorem fetch_token_expiry_not_past_witness :
    ∃ e, ({ sent := { bearerAccess := some "acc", tokenExpiry := some 1000 }
            state := boundaryState, events := [], grantCalls := 0
            grantApplied := none } : FetchOutcome).sent.tokenExpiry = some e ∧
      (1000 : Int) ≤ e :=
  (fetch_token_expiry_not_past boundaryState 1000 (.err "unused") _ rfl).1 rfl rfl

/-- On a web session, `getNewToken` never changes the stored refresh token:
the success path copies `this.token.refresh` into the new token and every
other path leaves the token alone. -/
theorem getNewToken_web_refresh (s : OauthState) (now : Int) (grant : GrantBody)
    (g : GrantOutcome) (h : getNewToken s now grant = Except.ok g)
    (hweb : s.appType = AppType.web) :
    g.state.token.refresh = s.token.refresh := by
  unfold getNewToken emitErrorReturn at h
  simp only [hweb] at h
  rcases grant with r | m <;> (try split_ifs at h) <;>
    simp only [Except.ok.injEq] at h <;> (try subst h) <;> simp_all

/-- C9: after every successful refresh-token grant on a web session the
stored token's refresh field equals the refresh token held before the
grant — the response's refresh_token field (universally quantified here) is
discarded — while access and expiry are replaced; and no fetch on a web
session ever changes the stored refresh token. -/
theorem web_refresh_token_never_changes :
    (∀ (s : OauthState) (now : Int) (g : GrantBody) (r : FetchOutcome),
        s.appType = AppType.web → oauthFetch s now g = .ok r →
        r.state.token.refresh = s.token.refresh) ∧
    (∀ (s : OauthState) (now : Int) (resp : OauthTokenResponseBody) (r : FetchOutcome),
        s.appType = AppType.web → needNewToken s.token now = true →
        jsTruthy s.token.refresh = true →
        oauthFetch s now (.ok resp) = .ok r →
        r.state.token.refresh = s.token.refresh ∧
        r.state.token.access = some resp.access_token ∧
        r.state.token.expiry = some (now + resp.expires_in * 1000)) := by
  constructor
  · intro s now g r hweb h
    unfold oauthFetch at h
    split at h
    · cases hg : getNewToken s now g with
      | error e => rw [hg] at h; exact absurd h (by simp)
      | ok go =>
        rw [hg] at h
        simp only [Except.ok.injEq] at h
        subst h
        exact getNewToken_web_refresh s now g go hg hweb
    · simp only [Except.ok.injEq] at h
      subst h
      rfl
  · intro s now resp r hweb hneed htruthy h
    unfold oauthFetch at h
    simp only [hneed, if_true] at h
    unfold getNewToken emitErrorReturn at h
    simp only [hweb, htruthy, Bool.not_true, Bool.false_eq_true, if_false,
      Except.ok.injEq] at h
    subst h
    exact ⟨rfl, rfl, rfl⟩

def webSession : OauthState :=
  { id := some "cid", secret := some "csec", username := none, password := none
    appType := .web
    token := { access := some "oldacc", refresh := some "rt0", expiry := some 0 }
    hasErrorListener := false }

/-- C9 (witness): a refresh grant whose response carries a different
refresh_token still leaves the originally held refresh token stored, while
access and expiry are replaced. -/
theorem web_refresh_token_never_changes_witness :
    ({ sent := { bearerAccess := some "newacc", tokenExpiry := some 3600005 }
       state := { webSession with
         token := { access := some "newacc", refresh := some "rt0"
                    expiry := some 3600005 } }
       events := [.tokenRefreshed
         { access := some "newacc", refresh := some "rt0", expiry := some 3600005 }]
       grantCalls := 1
       grantApplied := some ⟨"newacc", 3600, some "otherRT"⟩ } :
        FetchOutcome).state.token.refresh = webSession.token.refresh ∧
    ({ sent := { bearerAccess := some "newacc", tokenExpiry := some 3600005 }
       state := { webSession with
         token := { access := some "newacc", refresh := some "rt0"
                    expiry := some 3600005 } }
       events := [.tokenRefreshed
         { access := some "newacc", refresh := some "rt0", expiry := some 3600005 }]
       grantCalls := 1
       grantApplied := some ⟨"newacc", 3600, some "otherRT"⟩ } :
        FetchOutcome).state.token.access = some "newacc" ∧
    ({ sent := { bearerAccess := some "newacc", tokenExpiry := some 3600005 }
       state := { webSession with
         token := { access := some "newacc", refresh := some "rt0"
                    expiry := some 3600005 } }
       events := [.tokenRefreshed
         { access := some "newacc", refresh := some "rt0", expiry := some 3600005 }]
       grantCalls := 1
       grantApplied := some ⟨"newacc", 3600, some "otherRT"⟩ } :
        FetchOutcome).state.token.expiry = some ((5 : Int) + 3600 * 1000) :=
  web_refresh_token_never_changes.2 webSession 5 ⟨"newacc", 3600, some "otherRT"⟩ _
    rfl rfl rfl rfl

/-- The condition under which `getNewToken` reaches its network grant call:
a web session holding a truthy refresh token, or a script session holding
truthy username and password. -/
def grantReached (s : OauthState) : Prop :=
  (s.appType = AppType.web ∧ jsTruthy s.token.refresh = true) ∨
  (s.appType = AppType.script ∧ jsTruthy s.username = true ∧
    jsTruthy s.password = true)

/-- C6 (amended): a grant exchange whose response body carries an error
field performs exactly one grant call, is not retried, and stores no token;
the failure is thrown at the calling fetch only when no error listener is
registered — with a listener registered the error is merely emitted and the
fetch proceeds, sending the request with the stale access token. -/
theorem grant_error_not_stored (s : OauthState) (now : Int) (msg : String)
    (hneed : needNewToken s.token now = true) (hpath : grantReached s) :
    (s.hasErrorListener = false →
      oauthFetch s now (.err msg) = .error (.error msg)) ∧
    (s.hasErrorListener = true →
      oauthFetch s now (.err msg)
        = .ok { sent := { bearerAccess := s.token.access
                          tokenExpiry := s.token.expiry }
                state := s
                events := [.errorEvent msg]
                grantCalls := 1
                grantApplied := none }) := by
  unfold oauthFetch getNewToken emitErrorReturn
  rcases hpath with ⟨hweb, htruthy⟩ | ⟨hscript, hu, hp⟩
  · constructor <;> intro hl <;> simp [hweb, htruthy, hneed, hl]
  · constructor <;> intro hl <;> simp [hscript, hu, hp, hneed, hl]

def badPasswordSession : OauthState :=
  { id := some "cid", secret := some "csec", username := some "user"
    password := some "wrongpw", appType := .script
    token := { access := none, refresh := none, expiry := none }
    hasErrorListener := false }

/-- C6 (counterexample): a script session constructed with a wrong password
but carrying a registered error listener does not fail its first fetch at
the call — the grant error is only emitted, and the fetch proceeds to send
the request with no access token (the header renders "bearer undefined"),
so the failure is not surfaced to the caller as the call's failure. -/
theorem grant_error_listener_cex :
    oauthFetch { badPasswordSession with hasErrorListener := true } 0
        (.err "invalid_grant")
      = .ok { sent := { bearerAccess := none, tokenExpiry := none }
              state := { badPasswordSession with hasErrorListener := true }
              events := [.errorEvent "invalid_grant"]
              grantCalls := 1
              grantApplied := none } := rfl

/-- C6 (witness): with no error listener, the wrong-password grant error is
thrown at the first fetch (carrying the API's error string) and the session
still holds no token data. -/
theorem grant_error_not_stored_witness :
    oauthFetch badPasswordSession 0 (.err "invalid_grant")
      = .error (.error "invalid_grant") :=
  (grant_error_not_stored badPasswordSession 0 "invalid_grant" rfl
    (Or.inr ⟨rfl, rfl, rfl⟩)).1 rfl

/-- C7 (amended): on a web session whose token is expired and which holds
no truthy refresh token, the missing-refresh failure is emitted on the
session's error event channel; it surfaces as an exception at the calling
fetch only when no error listener is registered — with a listener the fetch
proceeds and sends the request with the stale token, so the caller sees no
failure at the call. -/
theorem refresh_missing_emitted (s : OauthState) (now : Int) (g : GrantBody)
    (hweb : s.appType = AppType.web) (hnorf : jsTruthy s.token.refresh = false)
    (hneed : needNewToken s.token now = true) :
    (s.hasErrorListener = false →
      oauthFetch s now g
        = .error (.error "Access token expired; excpected a refresh token.")) ∧
    (s.hasErrorListener = true →
      oauthFetch s now g
        = .ok { sent := { bearerAccess := s.token.access
                          tokenExpiry := s.token.expiry }
                state := s
                events := [.errorEvent
                  "Access token expired; excpected a refresh token."]
                grantCalls := 0
                grantApplied := none }) := by
  unfold oauthFetch getNewToken emitErrorReturn
  constructor <;> intro hl <;> simp [hweb, hnorf, hneed, hl]

def webNoRefreshSession : OauthState :=
  { id := some "cid", secret := some "csec", username := none, password := none
    appType := .web
    token := { access := some "stale", refresh := none, expiry := some 0 }
    hasErrorListener := false }

/-- C7 (counterexample): a web session with an expired token, no refresh
token and a registered error listener completes its fetch normally — the
missing-refresh condition is reported only on the listener side channel and
the request goes out with the stale token, so the failure is not a typed
result or exception of the call that triggered it. -/
theorem refresh_missing_listener_cex :
    oauthFetch { webNoRefreshSession with hasErrorListener := true } 5000
        (.err "unused")
      = .ok { sent := { bearerAccess := some "stale", tokenExpiry := some 0 }
              state := { webNoRefreshSession with hasErrorListener := true }
              events := [.errorEvent
                "Access token expired; excpected a refresh token."]
              grantCalls := 0
              grantApplied := none } := rfl

/-- C7 (witness): the same session with no listener fails its fetch with
the thrown missing-refresh error. -/
theorem refresh_missing_emitted_witness :
    oauthFetch webNoRefreshSession 5000 (.err "unused")
      = .error (.error "Access token expired; excpected a refresh token.") :=
  (refresh_missing_emitted webNoRefreshSession 5000 (.err "unused")
    rfl rfl rfl).1 rfl

/-! ## Concurrent fetches against one session (src/mod.ts lines 424-431)

`RedditOauth.fetch` checks the token synchronously and then awaits
`getNewToken()` with no lock, promise caching, or other single-flight
coordination; between a task's expiry check and the arrival of its grant
response, every other pending fetch on the session can run its own check.
The interleaving of the cooperatively scheduled fetch tasks is modelled as
an explicit schedule of atomic steps: a task at `start` checks the shared
token and either sends (token valid) or begins its own grant call; a task
at `granting` receives its grant response, stores the token and sends. -/

/-- Program counter of one in-flight `RedditOauth.fetch` call. -/
inductive TaskPC
  | start
  | granting
  | done
deriving DecidableEq, Repr

/-- Shared session state plus per-task progress and the observables the
concurrency claim counts: grant calls started, grants currently in flight,
the maximum ever simultaneously in flight, and the sends performed. -/
structure ConcState where
  tokenValid : Bool
  pcs : List TaskPC
  grantCalls : Nat
  inFlight : Nat
  maxInFlight : Nat
  sends : Nat
  sendsWithValidToken : Nat
deriving DecidableEq, Repr

/-- n concurrent fetches issued against a session whose token is already
expired. -/
def concInit (n : Nat) : ConcState :=
  ⟨false, List.replicate n .start, 0, 0, 0, 0, 0⟩

/-- One atomic step of task i: the synchronous expiry check of
`RedditOauth.fetch` (line 428), or the completion of that task's awaited
`getNewToken` network call — `setToken` followed by the `super.fetch`
send. A step of a finished or out-of-range task does nothing. -/
def concStep (st : ConcState) (i : Nat) : ConcState :=
  match st.pcs[i]? with
  | some TaskPC.start =>
    if st.tokenValid then
      { st with
        pcs := st.pcs.set i TaskPC.done,
        sends := st.sends + 1,
        sendsWithValidToken := st.sendsWithValidToken + 1 }
    else
      { st with
        pcs := st.pcs.set i TaskPC.granting,
        grantCalls := st.grantCalls + 1,
        inFlight := st.inFlight + 1,
        maxInFlight := max st.maxInFlight (st.inFlight + 1) }
  | some TaskPC.granting =>
    { st with
      pcs := st.pcs.set i TaskPC.done,
      tokenValid := true,
      inFlight := st.inFlight - 1,
      sends := st.sends + 1,
      sendsWithValidToken := st.sendsWithValidToken + 1 }
  | _ => st

/-- Run a schedule of task steps from the n-task initial state. -/
def concRun (n : Nat) (sched : List Nat) : ConcState :=
  sched.foldl concStep (concInit n)

/-- The schedule in which all ten fetches perform their expiry check before
any grant response arrives — exactly what the JS event loop does when ten
fetches are issued in one tick — followed by the ten grant completions. -/
def allCheckFirst : List Nat :=
  [0, 1, 2, 3, 4, 5, 6, 7, 8, 9, 0, 1, 2, 3, 4, 5, 6, 7, 8, 9]

/-- The fully serialized schedule: the first fetch checks and completes its
grant before any other fetch checks. -/
def serializedSched : List Nat :=
  [0, 0, 1, 2, 3, 4, 5, 6, 7, 8, 9]

/-- C8 (counterexample): under the schedule in which all 10 concurrent
fetches check the expired token before any grant completes, 10 grant
network calls are made (not exactly 1) and 10 grant calls are in flight
simultaneously (not at most 1). -/
theorem concurrent_grants_not_single_flight_cex :
    (concRun 10 allCheckFirst).grantCalls = 10 ∧
    1 < (concRun 10 allCheckFirst).maxInFlight := by decide

/-- C8 (amended): the session performs no single-flight coordination on
grants — each concurrent fetch that observes the expired token issues its
own grant call, so the number of grant calls depends on the interleaving:
when all 10 fetches check before any grant completes, 10 grant calls are
made with 10 simultaneously in flight, yet all 10 fetches still complete
and every request is sent with a valid granted token; under the fully
serialized schedule the same 10 fetches make exactly 1 grant call. -/
theorem concurrent_grants_one_per_observer :
    (concRun 10 allCheckFirst).grantCalls = 10 ∧
    (concRun 10 allCheckFirst).maxInFlight = 10 ∧
    (concRun 10 allCheckFirst).pcs = List.replicate 10 TaskPC.done ∧
    (concRun 10 allCheckFirst).sends = 10 ∧
    (concRun 10 allCheckFirst).sendsWithValidToken = 10 ∧
    (concRun 10 serializedSched).grantCalls = 1 ∧
    (concRun 10 serializedSched).maxInFlight = 1 ∧
    (concRun 10 serializedSched).pcs = List.replicate 10 TaskPC.done ∧
    (concRun 10 serializedSched).sends = 10 ∧
    (concRun 10 serializedSched).sendsWithValidToken = 10 := by decide

/-! ## The `Reddit.create` factory (src/mod.ts lines 35-58) -/

/-- The options object accepted by `Reddit.create`: every field optional,
`none` modelling an absent property. -/
structure RedditInit where
  userAgent : Option String := none
  clientId : Option String := none
  clientSecret : Option String := none
  username : Option String := none
  password : Option String := none
  refreshToken : Option String := none
  accessToken : Option String := none
  tokenExpiry : Option Int := none
deriving DecidableEq, Repr

/-- `Object.keys(options).length`: the number of properties present on the
options object. -/
def keysCount (o : RedditInit) : Nat :=
  [o.userAgent.isSome, o.clientId.isSome, o.clientSecret.isSome,
    o.username.isSome, o.password.isSome, o.refreshToken.isSome,
    o.accessToken.isSome, o.tokenExpiry.isSome].count true

/-- The `RedditOauth` constructor (src/mod.ts lines 335-352): copies the
credential fields, builds the initial token from the possibly-absent
accessToken/refreshToken/tokenExpiry options, and picks the app type by
truthiness of password, then refreshToken. A fresh session has no error
listener. -/
def redditOauthNew (o : RedditInit) : OauthState :=
  { id := o.clientId
    secret := o.clientSecret
    username := o.username
    password := o.password
    appType :=
      if jsTruthy o.password then .script
      else if jsTruthy o.refreshToken then .web
      else .unset
    token := { access := o.accessToken, refresh := o.refreshToken
               expiry := o.tokenExpiry }
    hasErrorListener := false }

/-- What `Reddit.create` produces: an anonymous session (with the supplied
user agent, if any), an OAuth session, or a thrown `TypeError`. -/
inductive CreateResult
  | anon (userAgent : Option String)
  | oauth (s : OauthState)
  | typeError (msg : String)
deriving DecidableEq, Repr

/-- `Reddit.create` (src/mod.ts lines 36-58): no options gives an anonymous
session; a one-property object with a truthy userAgent gives an anonymous
session; truthy clientId and clientSecret demand truthy username+password
or a truthy refreshToken and otherwise fall through to the throw — the
accessToken branch is an `else if` of the clientId/clientSecret test, so
it is only consulted when that test fails. -/
def redditCreate : Option RedditInit → CreateResult
  | none => .anon none
  | some o =>
    if keysCount o = 1 ∧ jsTruthy o.userAgent then .anon o.userAgent
    else if jsTruthy o.clientId ∧ jsTruthy o.clientSecret then
      if jsTruthy o.username ∧ jsTruthy o.password then .oauth (redditOauthNew o)
      else if jsTruthy o.refreshToken then .oauth (redditOauthNew o)
      else .typeError "Missing credentials."
    else if jsTruthy o.accessToken then .oauth (redditOauthNew o)
    else .typeError "Missing credentials."

/-- C10 (counterexample): an options object carrying clientId, clientSecret
and accessToken has accessToken, so by the claim it should construct a
session — but `Reddit.create` throws `TypeError("Missing credentials.")`,
because the accessToken branch is unreachable once clientId and
clientSecret are both truthy. -/
theorem create_access_token_shadowed_cex :
    redditCreate (some { clientId := some "cid", clientSecret := some "csec"
                         accessToken := some "tok" })
      = .typeError "Missing credentials." ∧
    ({ clientId := some "cid", clientSecret := some "csec"
       accessToken := some "tok" } : RedditInit).accessToken = some "tok" := by
  exact ⟨rfl, rfl⟩

/-- C10 (amended): `Reddit.create` with no options returns an anonymous
session, and with a one-property object whose userAgent is nonempty it
returns an anonymous session; it throws `TypeError("Missing credentials.")`
exactly when the options are not a truthy one-property userAgent object,
do not carry truthy clientId and clientSecret together with either truthy
username+password or a truthy refreshToken, and do not fail the
clientId/clientSecret test while carrying a truthy accessToken — in
particular it throws when clientId and clientSecret are present but no
username+password or refreshToken is, even if accessToken is present
(and a present-but-empty field counts as absent throughout). -/
theorem create_missing_credentials_iff :
    redditCreate none = .anon none ∧
    (∀ ua : String, ua ≠ "" →
      redditCreate (some { userAgent := some ua }) = .anon (some ua)) ∧
    (∀ o : RedditInit,
      redditCreate (some o) = .typeError "Missing credentials." ↔
        ¬ (keysCount o = 1 ∧ jsTruthy o.userAgent = true) ∧
        ¬ (jsTruthy o.clientId = true ∧ jsTruthy o.clientSecret = true ∧
            ((jsTruthy o.username = true ∧ jsTruthy o.password = true) ∨
              jsTruthy o.refreshToken = true)) ∧
        ¬ (¬ (jsTruthy o.clientId = true ∧ jsTruthy o.clientSecret = true) ∧
            jsTruthy o.accessToken = true)) := by
  refine ⟨rfl, ?_, ?_⟩
  · intro ua hua
    have : jsTruthy (some ua) = true := by simp [jsTruthy, hua]
    simp [redditCreate, keysCount, this]
  · intro o
    show (if keysCount o = 1 ∧ jsTruthy o.userAgent = true then
        CreateResult.anon o.userAgent
      else if jsTruthy o.clientId = true ∧ jsTruthy o.clientSecret = true then
        if jsTruthy o.username = true ∧ jsTruthy o.password = true then
          CreateResult.oauth (redditOauthNew o)
        else if jsTruthy o.refreshToken = true then
          CreateResult.oauth (redditOauthNew o)
        else CreateResult.typeError "Missing credentials."
      else if jsTruthy o.accessToken = true then
        CreateResult.oauth (redditOauthNew o)
      else CreateResult.typeError "Missing credentials.") =
        CreateResult.typeError "Missing credentials." ↔ _
    split_ifs with h1 h2 h3 h4 h5 <;> simp_all

/-- C10 (witness): a one-property options object with a nonempty userAgent
yields an anonymous session carrying that user agent. -/
theorem create_missing_credentials_iff_witness :
    redditCreate (some { userAgent := some "my-agent/1.0" })
      = .anon (some "my-agent/1.0") :=
  create_missing_credentials_iff.2.1 "my-agent/1.0" (by decide)

end Snooland
